import Mathlib

/-!
Verification of the `guest-components-ext` repository: a TPM-backed
deterministic seed-derivation system consisting of

* `attestation-agent-init` — provisions an RSA Attestation Key (AK) at a
  fixed persistent TPM handle (`provision_ak` in
  `attestation-agent-init/src/main.rs`);
* `kbs-local-provider/provider` — the seed-provider library: HKDF-SHA256
  seed derivation (`crypto.rs`) and the TPM backend that reads the AK
  public key as DER-encoded SubjectPublicKeyInfo (`tpm/mod.rs`);
* `kbs-local-provider/kbs-local-provider` — the binary: parses
  `init_data.toml` (`initdata.rs`), derives the seed, and serves it over a
  FIFO (`fifo.rs`, `main.rs`).

Byte strings are modelled as `List Nat` (each element `< 256`); Rust
strings appear as their UTF-8 byte sequences.  Fallible Rust code
(`Result`) is modelled with `Except String`.  External-library calls whose
outcome depends on the environment (the TPM device, the TOML parser) are
parameters of the embedded functions, so theorems quantify over every
possible behaviour of the environment.
-/

/-! ## SHA-256 (the `sha2` crate's `Sha256`), on byte lists -/

/-- Truncate to a 32-bit word. -/
def w32 (x : Nat) : Nat := x % 4294967296

/-- Rotate a 32-bit word right by `n`. -/
def rotr32 (n x : Nat) : Nat := w32 ((x >>> n) ||| (x <<< (32 - n)))

/-- SHA-256 `Ch` function. -/
def shaCh (x y z : Nat) : Nat := (x &&& y) ^^^ ((x ^^^ 4294967295) &&& z)

/-- SHA-256 `Maj` function. -/
def shaMaj (x y z : Nat) : Nat := (x &&& y) ^^^ (x &&& z) ^^^ (y &&& z)

/-- SHA-256 big sigma 0. -/
def bigSigma0 (x : Nat) : Nat := rotr32 2 x ^^^ rotr32 13 x ^^^ rotr32 22 x

/-- SHA-256 big sigma 1. -/
def bigSigma1 (x : Nat) : Nat := rotr32 6 x ^^^ rotr32 11 x ^^^ rotr32 25 x

/-- SHA-256 small sigma 0. -/
def smallSigma0 (x : Nat) : Nat := rotr32 7 x ^^^ rotr32 18 x ^^^ (x >>> 3)

/-- SHA-256 small sigma 1. -/
def smallSigma1 (x : Nat) : Nat := rotr32 17 x ^^^ rotr32 19 x ^^^ (x >>> 10)

/-- The 64 SHA-256 round constants. -/
def sha256K : List Nat :=
  [1116352408, 1899447441, 3049323471, 3921009573, 961987163, 1508970993,
   2453635748, 2870763221, 3624381080, 310598401, 607225278, 1426881987,
   1925078388, 2162078206, 2614888103, 3248222580, 3835390401, 4022224774,
   264347078, 604807628, 770255983, 1249150122, 1555081692, 1996064986,
   2554220882, 2821834349, 2952996808, 3210313671, 3336571891, 3584528711,
   113926993, 338241895, 666307205, 773529912, 1294757372, 1396182291,
   1695183700, 1986661051, 2177026350, 2456956037, 2730485921, 2820302411,
   3259730800, 3345764771, 3516065817, 3600352804, 4094571909, 275423344,
   430227734, 506948616, 659060556, 883997877, 958139571, 1322822218,
   1537002063, 1747873779, 1955562222, 2024104815, 2227730452, 2361852424,
   2428436474, 2756734187, 3204031479, 3329325298]

/-- Working state of the SHA-256 compression function: eight 32-bit words. -/
structure Sha256State where
  a : Nat
  b : Nat
  c : Nat
  d : Nat
  e : Nat
  f : Nat
  g : Nat
  h : Nat

/-- Initial SHA-256 hash value. -/
def sha256Init : Sha256State :=
  ⟨1779033703, 3144134277, 1013904242, 2773480762,
   1359893119, 2600822924, 528734635, 1541459225⟩

/-- One round of the SHA-256 compression function, with round constant `k`
and schedule word `w`. -/
def sha256Round (s : Sha256State) (k w : Nat) : Sha256State :=
  let t1 := s.h + bigSigma1 s.e + shaCh s.e s.f s.g + k + w
  let t2 := bigSigma0 s.a + shaMaj s.a s.b s.c
  ⟨w32 (t1 + t2), s.a, s.b, s.c, w32 (s.d + t1), s.e, s.f, s.g⟩

/-- Run the 64 rounds over the zipped (constant, schedule-word) list. -/
def sha256Rounds (s : Sha256State) : List (Nat × Nat) → Sha256State
  | [] => s
  | (k, w) :: rest => sha256Rounds (sha256Round s k w) rest

/-- Big-endian decoding of bytes into 32-bit words (16 words per block). -/
def bytesToWords : List Nat → List Nat
  | a :: b :: c :: d :: rest =>
      (a * 16777216 + b * 65536 + c * 256 + d) :: bytesToWords rest
  | _ => []

/-- Extend the 16-word message schedule by `n` further words. -/
def extendSchedule (ws : List Nat) : Nat → List Nat
  | 0 => ws
  | n + 1 =>
    let i := ws.length
    let next := w32 (ws.getD (i - 16) 0 + smallSigma0 (ws.getD (i - 15) 0)
      + ws.getD (i - 7) 0 + smallSigma1 (ws.getD (i - 2) 0))
    extendSchedule (ws ++ [next]) n

/-- Pointwise 32-bit addition of two compression states. -/
def addStates (s t : Sha256State) : Sha256State :=
  ⟨w32 (s.a + t.a), w32 (s.b + t.b), w32 (s.c + t.c), w32 (s.d + t.d),
   w32 (s.e + t.e), w32 (s.f + t.f), w32 (s.g + t.g), w32 (s.h + t.h)⟩

/-- Process one 64-byte block. -/
def sha256Block (s : Sha256State) (block : List Nat) : Sha256State :=
  let ws := extendSchedule (bytesToWords block) 48
  addStates s (sha256Rounds s (sha256K.zip ws))

/-- Split a byte list into 64-byte chunks, consuming at most `fuel` chunks.
Structural recursion on the fuel keeps the definition kernel-reducible. -/
def chunksOf64Aux : Nat → List Nat → List (List Nat)
  | 0, _ => []
  | _, [] => []
  | fuel + 1, l => l.take 64 :: chunksOf64Aux fuel (l.drop 64)

/-- Split a byte list into 64-byte chunks (the list's length is always
enough fuel, since every chunk consumes at least one byte). -/
def chunksOf64 (l : List Nat) : List (List Nat) :=
  chunksOf64Aux l.length l

/-- Big-endian encoding of a 64-bit length. -/
def u64be (n : Nat) : List Nat :=
  [(n >>> 56) % 256, (n >>> 48) % 256, (n >>> 40) % 256, (n >>> 32) % 256,
   (n >>> 24) % 256, (n >>> 16) % 256, (n >>> 8) % 256, n % 256]

/-- Big-endian encoding of a 32-bit word. -/
def u32be (n : Nat) : List Nat :=
  [(n >>> 24) % 256, (n >>> 16) % 256, (n >>> 8) % 256, n % 256]

/-- SHA-256 padding: `0x80`, zero bytes to 56 mod 64, 64-bit bit length. -/
def sha256Pad (msg : List Nat) : List Nat :=
  let l := msg.length
  let k := (64 - ((l + 9) % 64)) % 64
  msg ++ 0x80 :: (List.replicate k 0 ++ u64be (8 * l))

/-- Serialize the final state as the 32 digest bytes. -/
def stateBytes (s : Sha256State) : List Nat :=
  u32be s.a ++ u32be s.b ++ u32be s.c ++ u32be s.d ++
  u32be s.e ++ u32be s.f ++ u32be s.g ++ u32be s.h

/-- SHA-256 of a byte list. -/
def sha256 (msg : List Nat) : List Nat :=
  stateBytes ((chunksOf64 (sha256Pad msg)).foldl sha256Block sha256Init)

theorem stateBytes_length (s : Sha256State) : (stateBytes s).length = 32 := by
  simp [stateBytes, u32be]

/-- SHA-256 always produces exactly 32 bytes. -/
theorem sha256_length (msg : List Nat) : (sha256 msg).length = 32 :=
  stateBytes_length _

/-- Sanity check against the FIPS 180-4 test vector for the empty message. -/
example : sha256 [] =
    [227, 176, 196, 66, 152, 252, 28, 20, 154, 251, 244, 200, 153, 111, 185,
     36, 39, 174, 65, 228, 100, 155, 147, 76, 164, 149, 153, 27, 120, 82,
     184, 85] := by decide

/-- Sanity check: SHA-256 of ASCII "abc". -/
example : sha256 [97, 98, 99] =
    [186, 120, 22, 191, 143, 1, 207, 234, 65, 65, 64, 222, 93, 174, 34, 35,
     176, 3, 97, 163, 150, 23, 122, 156, 180, 16, 255, 97, 242, 0, 21,
     173] := by decide

/-! ## HMAC-SHA256 and HKDF-SHA256 (the `hkdf` crate with `Sha256`) -/

/-- HMAC key normalisation: hash keys longer than the 64-byte block, then
pad with zero bytes to the block size. -/
def hmacKey (key : List Nat) : List Nat :=
  let k0 := if 64 < key.length then sha256 key else key
  k0 ++ List.replicate (64 - k0.length) 0

/-- HMAC-SHA256 of `msg` under `key`. -/
def hmacSha256 (key msg : List Nat) : List Nat :=
  let k := hmacKey key
  sha256 ((k.map (fun b => b ^^^ 0x5c)) ++
    sha256 ((k.map (fun b => b ^^^ 0x36)) ++ msg))

/-- HKDF extract phase: the pseudorandom key is HMAC(salt, ikm).  This is
`Hkdf::<Sha256>::new(Some(salt), ikm)` in the `hkdf` crate. -/
def hkdfExtract (salt ikm : List Nat) : List Nat := hmacSha256 salt ikm

/-- HKDF expand block `T(i)`: `T(0)` is empty and
`T(i+1) = HMAC(prk, T(i) ++ info ++ [i+1])`. -/
def hkdfT (prk info : List Nat) : Nat → List Nat
  | 0 => []
  | i + 1 => hmacSha256 prk (hkdfT prk info i ++ info ++ [(i + 1) % 256])

/-- Concatenation of the expand blocks `T(1) ++ ... ++ T(n)`. -/
def hkdfBlocks (prk info : List Nat) : Nat → List Nat
  | 0 => []
  | n + 1 => hkdfBlocks prk info n ++ hkdfT prk info (n + 1)

/-- HKDF expand phase, requesting `len` output bytes; fails exactly when
more than `255 * 32` bytes are requested (RFC 5869 / `hkdf::InvalidLength`). -/
def hkdfExpand (prk info : List Nat) (len : Nat) : Option (List Nat) :=
  let n := (len + 31) / 32
  if 255 < n then none
  else some ((hkdfBlocks prk info n).take len)

/-- Embedding of `derive_ed25519_seed` from
`kbs-local-provider/provider/src/crypto.rs`: HKDF-SHA256 with the 32-byte
init-data digest as extract salt, the AK SubjectPublicKeyInfo DER as input
keying material, and the domain-separator bytes as expand info, producing
32 bytes.  The `none` branch models the `.expect("32 bytes is valid for
HKDF-SHA256")` panic; `derive_hkdf_spec` proves it unreachable. -/
def derive_ed25519_seed (ikm init_data_digest domain_separator : List Nat) :
    List Nat :=
  match hkdfExpand (hkdfExtract init_data_digest ikm) domain_separator 32 with
  | some seed => seed
  | none => []

theorem hmacSha256_length (key msg : List Nat) :
    (hmacSha256 key msg).length = 32 := sha256_length _

theorem hkdfT_length (prk info : List Nat) (i : Nat) (h : 0 < i) :
    (hkdfT prk info i).length = 32 := by
  cases i with
  | zero => omega
  | succ j => exact hmacSha256_length _ _

theorem hkdfExpand_32 (prk info : List Nat) :
    hkdfExpand prk info 32 = some (hkdfT prk info 1) := by
  have h0 : hkdfExpand prk info 32 = some (([] ++ hkdfT prk info 1).take 32) :=
    rfl
  rw [h0, List.nil_append,
    List.take_of_length_le (le_of_eq (hkdfT_length prk info 1 Nat.one_pos))]

theorem derive_ed25519_seed_eq_hkdfT (ikm digest sep : List Nat) :
    derive_ed25519_seed ikm digest sep =
      hkdfT (hkdfExtract digest ikm) sep 1 := by
  unfold derive_ed25519_seed
  rw [hkdfExpand_32]

theorem derive_ed25519_seed_length (ikm digest sep : List Nat) :
    (derive_ed25519_seed ikm digest sep).length = 32 := by
  rw [derive_ed25519_seed_eq_hkdfT]
  exact hkdfT_length _ _ 1 Nat.one_pos

/-! ## `initdata.rs`: parsing and digesting the launch configuration

The Rust `parse` reads the file, checks UTF-8 validity, runs the external
`toml` deserialiser, enforces the non-empty domain separator, and digests
the raw bytes.  The file read and the TOML deserialiser are environment
parameters of the embedding. -/

/-- Whether a byte is a UTF-8 continuation byte (`0x80`..`0xBF`). -/
def isContByte (b : Nat) : Bool := 0x80 ≤ b && b ≤ 0xBF

/-- UTF-8 validity of a byte sequence per RFC 3629 — the check performed
by `std::str::from_utf8`: no overlong encodings, no surrogates
(`0xED 0xA0..`), nothing above `U+10FFFF` (`0xF4 0x90..`). -/
def utf8Valid : List Nat → Bool
  | [] => true
  | b :: rest =>
    if b ≤ 0x7F then utf8Valid rest
    else if 0xC2 ≤ b && b ≤ 0xDF then
      match rest with
      | c1 :: r => isContByte c1 && utf8Valid r
      | [] => false
    else if b = 0xE0 then
      match rest with
      | c1 :: c2 :: r =>
          (0xA0 ≤ c1 && c1 ≤ 0xBF) && isContByte c2 && utf8Valid r
      | _ => false
    else if (0xE1 ≤ b && b ≤ 0xEC) || b = 0xEE || b = 0xEF then
      match rest with
      | c1 :: c2 :: r => isContByte c1 && isContByte c2 && utf8Valid r
      | _ => false
    else if b = 0xED then
      match rest with
      | c1 :: c2 :: r =>
          (0x80 ≤ c1 && c1 ≤ 0x9F) && isContByte c2 && utf8Valid r
      | _ => false
    else if b = 0xF0 then
      match rest with
      | c1 :: c2 :: c3 :: r =>
          (0x90 ≤ c1 && c1 ≤ 0xBF) && isContByte c2 && isContByte c3 &&
            utf8Valid r
      | _ => false
    else if 0xF1 ≤ b && b ≤ 0xF3 then
      match rest with
      | c1 :: c2 :: c3 :: r =>
          isContByte c1 && isContByte c2 && isContByte c3 && utf8Valid r
      | _ => false
    else if b = 0xF4 then
      match rest with
      | c1 :: c2 :: c3 :: r =>
          (0x80 ≤ c1 && c1 ≤ 0x8F) && isContByte c2 && isContByte c3 &&
            utf8Valid r
      | _ => false
    else false

/-- The `data` table of `init_data.toml` as deserialised by serde:
`domain_separator` is declared `Option<String>`; the string is modelled by
its UTF-8 bytes. -/
structure InitDataFields where
  domain_separator : Option (List Nat)
deriving DecidableEq

/-- The deserialised `init_data.toml` document. -/
structure InitData where
  data : InitDataFields
deriving DecidableEq

/-- Result type of `initdata::parse`. -/
structure ParsedInitData where
  domain_separator : List Nat
  init_data_digest : List Nat
deriving DecidableEq

/-- Embedding of `parse` from
`kbs-local-provider/kbs-local-provider/src/initdata.rs`.  `readResult` is
the outcome of `std::fs::read` on the configuration path, `fromToml`
abstracts the external `toml::from_str` deserialiser; `raw` is hashed
as read from disk — the digest is `sha256 raw`, computed over the raw,
unparsed bytes. -/
def parse (fromToml : List Nat → Except String InitData)
    (readResult : Except String (List Nat)) : Except String ParsedInitData :=
  match readResult with
  | Except.error e => Except.error e
  | Except.ok raw =>
    if utf8Valid raw then
      match fromToml raw with
      | Except.error _ => Except.error "failed to parse init_data.toml"
      | Except.ok init_data =>
        match init_data.data.domain_separator with
        | some ds =>
          if ds.isEmpty then
            Except.error
              "data.domain_separator is missing or empty in init_data.toml (security gate)"
          else
            Except.ok ⟨ds, sha256 raw⟩
        | none =>
          Except.error
            "data.domain_separator is missing or empty in init_data.toml (security gate)"
    else Except.error "init_data.toml is not valid UTF-8"

/-- Pipeline stages of `kbs-local-provider`'s `main`, in execution order:
parse the init data, fetch IKM from the TPM provider, derive the seed,
serve it over the FIFO. -/
inductive MainEvent
  | parseInitData
  | tpmIkm
  | deriveSeed
  | serveSeed
deriving DecidableEq

/-- Embedding of `main` from
`kbs-local-provider/kbs-local-provider/src/main.rs`: each `?` aborts the
pipeline.  `ikmResult` abstracts `detect_provider()` followed by
`provider.ikm()`.  The first component is the outcome (the seed handed to
`fifo::serve`, or the first error); the second is the ordered trace of
stages that were reached. -/
def mainRun (fromToml : List Nat → Except String InitData)
    (readResult : Except String (List Nat))
    (ikmResult : Except String (List Nat)) :
    Except String (List Nat) × List MainEvent :=
  match parse fromToml readResult with
  | Except.error e => (Except.error e, [MainEvent.parseInitData])
  | Except.ok parsed =>
    match ikmResult with
    | Except.error e => (Except.error e, [MainEvent.parseInitData, MainEvent.tpmIkm])
    | Except.ok ikm =>
      (Except.ok (derive_ed25519_seed ikm parsed.init_data_digest
          parsed.domain_separator),
       [MainEvent.parseInitData, MainEvent.tpmIkm, MainEvent.deriveSeed,
        MainEvent.serveSeed])

/-! ## AK persistent-handle constants

Both crates declare their own `const AK_HANDLE: u32 = 0x81010002;`:
`attestation-agent-init/src/main.rs` line 15 and
`kbs-local-provider/provider/src/tpm/mod.rs` line 11.  The two namespaces
mirror the two declaration sites. -/

namespace AttestationAgentInit

/-- The `AK_HANDLE` constant of `attestation-agent-init/src/main.rs`. -/
def AK_HANDLE : Nat := 0x81010002

end AttestationAgentInit

namespace TpmProvider

/-- The `AK_HANDLE` constant of
`kbs-local-provider/provider/src/tpm/mod.rs`. -/
def AK_HANDLE : Nat := 0x81010002

end TpmProvider

/-- The AK-handle constant declaration sites in the source tree, with the
literal value each one carries.  There are two separate `const` items, one
per crate; the literal `0x81010002` is duplicated at both. -/
def akHandleDeclSites : List (String × Nat) :=
  [("attestation-agent-init/src/main.rs", 0x81010002),
   ("kbs-local-provider/provider/src/tpm/mod.rs", 0x81010002)]

/-! ## The AK provisioning state machine (`provision_ak`)

The TPM is modelled as a state holding persistent objects (handle ↦
object id) and loaded transient object ids.  The five fallible TPM calls
of steps 3a–3e are driven by a failure oracle `fail : TpmOp → Bool`
describing which TPM operations the environment makes fail; a failing
operation returns its error without mutating TPM state.  `provision_ak`
returns the Rust result, the final TPM state, and the ordered trace of
TPM operations it attempted. -/

/-- TPM operations invoked by `provision_ak`, in program order. -/
inductive TpmOp
  | trFromTpmPublic
  | createPrimary
  | create
  | load
  | evictControl
  | flushContext
deriving DecidableEq

/-- TPM object store: persistent handle map, loaded transient objects and
a source of fresh object identities. -/
structure TpmState where
  persistent : List (Nat × Nat)
  transient : List Nat
  nextId : Nat
deriving DecidableEq

/-- Look up the object persisted at a handle. -/
def lookupHandle (s : TpmState) (handle : Nat) : Option Nat :=
  (s.persistent.find? (fun p => p.1 == handle)).map Prod.snd

/-- Embedding of `provision_ak` from `attestation-agent-init/src/main.rs`.
`tr_from_tpm_public` at the fixed handle succeeds exactly when an object
is persisted there (`already_exists`); on success the function returns
immediately.  Otherwise the run executes create-primary (transient EK),
create (AK key blobs), load (transient AK), evict-control (persist the AK
at `AK_HANDLE`), and flush (drop the transient EK); the first failing
operation aborts the run with the provisioning error. -/
def provision_ak (fail : TpmOp → Bool) (s : TpmState) :
    Except String Unit × TpmState × List TpmOp :=
  if (lookupHandle s AttestationAgentInit.AK_HANDLE).isSome then
    (Except.ok (), s, [TpmOp.trFromTpmPublic])
  else if fail TpmOp.createPrimary then
    (Except.error "TPM AK provisioning failed", s,
     [TpmOp.trFromTpmPublic, TpmOp.createPrimary])
  else
    let ekId := s.nextId
    let s1 : TpmState :=
      { s with transient := ekId :: s.transient, nextId := s.nextId + 1 }
    if fail TpmOp.create then
      (Except.error "TPM AK provisioning failed", s1,
       [TpmOp.trFromTpmPublic, TpmOp.createPrimary, TpmOp.create])
    else
      let akId := s1.nextId
      let s2 : TpmState := { s1 with nextId := s1.nextId + 1 }
      if fail TpmOp.load then
        (Except.error "TPM AK provisioning failed", s2,
         [TpmOp.trFromTpmPublic, TpmOp.createPrimary, TpmOp.create,
          TpmOp.load])
      else
        let s3 : TpmState := { s2 with transient := akId :: s2.transient }
        if fail TpmOp.evictControl then
          (Except.error "TPM AK provisioning failed", s3,
           [TpmOp.trFromTpmPublic, TpmOp.createPrimary, TpmOp.create,
            TpmOp.load, TpmOp.evictControl])
        else
          let s4 : TpmState :=
            { s3 with
              persistent :=
                (AttestationAgentInit.AK_HANDLE, akId) :: s3.persistent,
              transient := s3.transient.erase akId }
          if fail TpmOp.flushContext then
            (Except.error "TPM AK provisioning failed", s4,
             [TpmOp.trFromTpmPublic, TpmOp.createPrimary, TpmOp.create,
              TpmOp.load, TpmOp.evictControl, TpmOp.flushContext])
          else
            let s5 : TpmState :=
              { s4 with transient := s4.transient.erase ekId }
            (Except.ok (), s5,
             [TpmOp.trFromTpmPublic, TpmOp.createPrimary, TpmOp.create,
              TpmOp.load, TpmOp.evictControl, TpmOp.flushContext])

/-! ## The TPM seed provider (`tpm/mod.rs`)

`ak_public_key_der` resolves the object at the fixed handle, reads and
decodes its public area — a chain of fallible external calls abstracted
into `readDecoded`, the decode outcome per handle — and re-encodes an RSA
key as SubjectPublicKeyInfo DER, rejecting every other key type. -/

/-- The `tss_esapi::abstraction::public::DecodedKey` variants: an RSA
public key (modulus and exponent as ASN.1 integer content bytes) or an
elliptic-curve point. -/
inductive DecodedKey
  | RsaPublicKey (modulus public_exponent : List Nat)
  | EcPoint (point : List Nat)
deriving DecidableEq

/-- Big-endian base-256 digits of `n` (no leading zeros), fuelled. -/
def beBytesAux : Nat → Nat → List Nat
  | 0, _ => []
  | fuel + 1, n => if n = 0 then [] else beBytesAux fuel (n / 256) ++ [n % 256]

/-- DER definite-form length encoding. -/
def derLen (n : Nat) : List Nat :=
  if n < 128 then [n]
  else
    let bs := beBytesAux n n
    (128 + bs.length) :: bs

/-- DER INTEGER with the given content bytes (serialized verbatim, as
`picky_asn1` serializes an `IntegerAsn1`). -/
def derInt (content : List Nat) : List Nat :=
  2 :: derLen content.length ++ content

/-- DER SEQUENCE. -/
def derSeq (content : List Nat) : List Nat :=
  0x30 :: derLen content.length ++ content

/-- DER NULL. -/
def derNull : List Nat := [0x05, 0x00]

/-- DER OBJECT IDENTIFIER for `rsaEncryption` (1.2.840.113549.1.1.1). -/
def derOidRsaEncryption : List Nat :=
  [0x06, 0x09, 0x2a, 0x86, 0x48, 0x86, 0xf7, 0x0d, 0x01, 0x01, 0x01]

/-- DER BIT STRING with zero unused bits. -/
def derBitString (content : List Nat) : List Nat :=
  0x03 :: derLen (content.length + 1) ++ (0 :: content)

/-- The DER encoding of `SubjectPublicKeyInfo::new_rsa_key(modulus,
public_exponent)` (`picky_asn1_x509`): an AlgorithmIdentifier of
`rsaEncryption` with NULL parameters, and a BIT STRING wrapping the PKCS#1
`RSAPublicKey` SEQUENCE of the two INTEGERs. -/
def subjectPublicKeyInfoRsa (modulus public_exponent : List Nat) : List Nat :=
  derSeq (derSeq (derOidRsaEncryption ++ derNull) ++
    derBitString (derSeq (derInt modulus ++ derInt public_exponent)))

/-- Embedding of `ak_public_key_der` from
`kbs-local-provider/provider/src/tpm/mod.rs`: read and decode the object
at the fixed `AK_HANDLE`; propagate any failure of that chain; reject a
non-RSA key; re-encode an RSA key as SubjectPublicKeyInfo DER. -/
def ak_public_key_der (readDecoded : Nat → Except String DecodedKey) :
    Except String (List Nat) :=
  match readDecoded TpmProvider.AK_HANDLE with
  | Except.error e => Except.error e
  | Except.ok (DecodedKey.EcPoint _) => Except.error "AK is not an RSA key"
  | Except.ok (DecodedKey.RsaPublicKey m e) =>
      Except.ok (subjectPublicKeyInfoRsa m e)

/-- `TpmSeedProvider::ikm` (trait `SeedProvider`) delegates to
`ak_public_key_der` on the provider's device. -/
def tpmSeedProviderIkm (readDecoded : Nat → Except String DecodedKey) :
    Except String (List Nat) :=
  ak_public_key_der readDecoded

/-! ## The FIFO serving loop (`fifo.rs`)

One iteration of `serve`'s `loop` recreates the FIFO, blocks opening it
for writing until a reader connects, writes the JSON-encoded secret, and
removes the FIFO.  Each iteration's interaction with the environment is
one of four outcomes; `serve` is run against a finite script of them.
Every `?` inside the loop body returns the error from `serve`. -/

/-- Environment outcome of one iteration of the `serve` loop. -/
inductive FifoIterOutcome
  | createFail
  | openFail
  | writeFail
  | deliverOk
deriving DecidableEq

/-- Observable status of `serve` after consuming a script: it has either
returned an error, or it is still looping (it never returns `Ok`). -/
inductive ServeResult
  | failed (msg : String)
  | looping
deriving DecidableEq

/-- Context message of the step at which an iteration failed. -/
def fifoErrorMessage : FifoIterOutcome → String
  | FifoIterOutcome.createFail => "failed to create FIFO"
  | FifoIterOutcome.openFail => "failed to open FIFO for writing"
  | FifoIterOutcome.writeFail => "failed to write CDH resources to FIFO"
  | FifoIterOutcome.deliverOk => ""

/-- Embedding of `serve` from
`kbs-local-provider/kbs-local-provider/src/fifo.rs`, driven by a script
of per-iteration outcomes; the second component counts successful
deliveries.  `create_fifo`, the open, and `write_all` are each followed
by `?` in the source, so each failure ends the loop by returning the
error. -/
def serve : List FifoIterOutcome → ServeResult × Nat
  | [] => (ServeResult.looping, 0)
  | o :: rest =>
    match o with
    | FifoIterOutcome.deliverOk =>
        let r := serve rest
        (r.1, r.2 + 1)
    | f => (ServeResult.failed (fifoErrorMessage f), 0)

/-! ## Concrete launch-configuration files used as evaluation inputs -/

/-- Bytes of the file `[data]\ndomain_separator = "app-v1"\n`. -/
def initDataFile1 : List Nat :=
  [91, 100, 97, 116, 97, 93, 10, 100, 111, 109, 97, 105, 110, 95, 115, 101,
   112, 97, 114, 97, 116, 111, 114, 32, 61, 32, 34, 97, 112, 112, 45, 118,
   49, 34, 10]

/-- The same file with one extra trailing newline: byte-level different,
TOML-semantically identical. -/
def initDataFile2 : List Nat := initDataFile1 ++ [10]

/-- A TOML-decoder behaviour consistent with both files above:
`data.domain_separator = "app-v1"`. -/
def constTomlDecode : List Nat → Except String InitData :=
  fun _ => Except.ok (InitData.mk (InitDataFields.mk
    (some [97, 112, 112, 45, 118, 49])))

/-! ## Claim theorems: seed derivation (C1, C2) -/

/-- C1: `derive_ed25519_seed` is deterministic — it is a pure function of
its three inputs, consulting no randomness, no internal state and no
clock, so any two calls with identical `(ikm, init_data_digest,
domain_separator)` inputs return identical 32-byte seeds. -/
theorem derive_ed25519_seed_deterministic
    (ikm₁ ikm₂ digest₁ digest₂ sep₁ sep₂ : List Nat)
    (hikm : ikm₁ = ikm₂) (hdigest : digest₁ = digest₂) (hsep : sep₁ = sep₂) :
    derive_ed25519_seed ikm₁ digest₁ sep₁ =
      derive_ed25519_seed ikm₂ digest₂ sep₂ := by
  rw [hikm, hdigest, hsep]

/-- Witness for C1 at concrete inputs. -/
theorem derive_ed25519_seed_deterministic_witness :
    derive_ed25519_seed [1, 2, 3] (List.replicate 32 0) [97] =
      derive_ed25519_seed [1, 2, 3] (List.replicate 32 0) [97] :=
  derive_ed25519_seed_deterministic [1, 2, 3] [1, 2, 3]
    (List.replicate 32 0) (List.replicate 32 0) [97] [97] rfl rfl rfl

/-- C2: for every ikm byte string, every 32-byte digest and every domain
separator, `derive_ed25519_seed` returns exactly 32 bytes, and those
bytes are the successful HKDF-SHA256 output with the digest as the
extract-phase salt, the ikm as input keying material, and the separator
bytes as the expand-phase info, for length 32 — the expand step returns
`some`, so the `expect` failure branch is unreachable. -/
theorem derive_ed25519_seed_hkdf32
    (ikm digest sep : List Nat) (hdigest : digest.length = 32) :
    (derive_ed25519_seed ikm digest sep).length = 32 ∧
    hkdfExpand (hkdfExtract digest ikm) sep 32 =
      some (derive_ed25519_seed ikm digest sep) := by
  refine ⟨derive_ed25519_seed_length ikm digest sep, ?_⟩
  rw [derive_ed25519_seed_eq_hkdfT ikm digest sep, hkdfExpand_32]

/-- Witness for C2 at concrete inputs. -/
theorem derive_ed25519_seed_hkdf32_witness :
    (List.replicate 32 (0 : Nat)).length = 32 ∧
    ((derive_ed25519_seed [1, 2, 3] (List.replicate 32 0) [97]).length = 32 ∧
     hkdfExpand (hkdfExtract (List.replicate 32 0) [1, 2, 3]) [97] 32 =
       some (derive_ed25519_seed [1, 2, 3] (List.replicate 32 0) [97])) :=
  ⟨by decide,
   derive_ed25519_seed_hkdf32 [1, 2, 3] (List.replicate 32 0) [97] (by decide)⟩

/-! ## Claim theorems: launch-configuration parsing (C3, C4, C10) -/

/-- Successful parses carry the SHA-256 of the raw file bytes. -/
theorem parse_ok_digest (fromToml : List Nat → Except String InitData)
    (raw : List Nat) (p : ParsedInitData)
    (h : parse fromToml (Except.ok raw) = Except.ok p) :
    p.init_data_digest = sha256 raw := by
  simp only [parse] at h
  split at h
  · split at h
    · simp at h
    · split at h
      · split at h
        · simp at h
        · injection h with h2
          rw [← h2]
      · simp at h
  · simp at h

/-- C3: when the decoded `data.domain_separator` is absent or empty,
`parse` fails with the security-gate error and the pipeline stops at the
parse stage — the TPM IKM retrieval, the derivation and the serving
stages are never reached and no seed is produced, for every possible TPM
behaviour; when the decoded separator is non-empty, `parse` returns that
separator. -/
theorem initdata_domain_separator_gate
    (fromToml : List Nat → Except String InitData) (raw : List Nat)
    (d : InitData) (ikmResult : Except String (List Nat))
    (hutf : utf8Valid raw = true)
    (hdec : fromToml raw = Except.ok d) :
    (d.data.domain_separator = none ∨ d.data.domain_separator = some [] →
      parse fromToml (Except.ok raw) =
        Except.error
          "data.domain_separator is missing or empty in init_data.toml (security gate)" ∧
      (mainRun fromToml (Except.ok raw) ikmResult).2 =
        [MainEvent.parseInitData] ∧
      ∀ seed, (mainRun fromToml (Except.ok raw) ikmResult).1 ≠
        Except.ok seed) ∧
    (∀ ds, d.data.domain_separator = some ds → ds ≠ [] →
      parse fromToml (Except.ok raw) =
        Except.ok (ParsedInitData.mk ds (sha256 raw))) := by
  constructor
  · intro hds
    have hp : parse fromToml (Except.ok raw) =
        Except.error
          "data.domain_separator is missing or empty in init_data.toml (security gate)" := by
      simp only [parse, hutf, if_true, hdec]
      rcases hds with h | h <;> simp [h]
    refine ⟨hp, ?_, ?_⟩
    · simp only [mainRun, hp]
    · intro seed
      simp only [mainRun, hp]
      simp
  · intro ds hds hne
    have he : ds.isEmpty = false := by
      cases ds with
      | nil => exact absurd rfl hne
      | cons a l => rfl
    simp only [parse, hutf, if_true, hdec, hds, he]
    simp

/-- Witness for C3: an absent separator with concrete inputs. -/
theorem initdata_domain_separator_gate_witness :
    parse (fun _ => Except.ok (InitData.mk (InitDataFields.mk none)))
        (Except.ok []) =
      Except.error
        "data.domain_separator is missing or empty in init_data.toml (security gate)" ∧
    (mainRun (fun _ => Except.ok (InitData.mk (InitDataFields.mk none)))
        (Except.ok []) (Except.ok [])).2 = [MainEvent.parseInitData] ∧
    ∀ seed, (mainRun (fun _ => Except.ok (InitData.mk (InitDataFields.mk none)))
        (Except.ok []) (Except.ok [])).1 ≠ Except.ok seed :=
  (initdata_domain_separator_gate
      (fun _ => Except.ok (InitData.mk (InitDataFields.mk none))) []
      (InitData.mk (InitDataFields.mk none)) (Except.ok [])
      rfl rfl).1 (Or.inl rfl)

/-- C4: the digest returned by `parse` is the SHA-256 of the raw,
unparsed file bytes exactly as read (not of any parsed field), so any two
configuration files whose raw bytes hash differently — as any byte-level
difference produces in the absence of a SHA-256 collision, whitespace and
comments included — yield different `init_data_digest` values. -/
theorem initdata_digest_is_raw_sha256
    (fromToml₁ fromToml₂ : List Nat → Except String InitData)
    (raw₁ raw₂ : List Nat) (p₁ p₂ : ParsedInitData)
    (h₁ : parse fromToml₁ (Except.ok raw₁) = Except.ok p₁)
    (h₂ : parse fromToml₂ (Except.ok raw₂) = Except.ok p₂) :
    p₁.init_data_digest = sha256 raw₁ ∧
    p₂.init_data_digest = sha256 raw₂ ∧
    (sha256 raw₁ ≠ sha256 raw₂ →
      p₁.init_data_digest ≠ p₂.init_data_digest) := by
  have d₁ := parse_ok_digest fromToml₁ raw₁ p₁ h₁
  have d₂ := parse_ok_digest fromToml₂ raw₂ p₂ h₂
  exact ⟨d₁, d₂, fun hne => by rw [d₁, d₂]; exact hne⟩

set_option maxRecDepth 40000 in
/-- Witness for C4: two files differing only in trailing whitespace parse
to different digests, and the seeds derived from them differ. -/
theorem initdata_digest_is_raw_sha256_witness :
    ((ParsedInitData.mk [97, 112, 112, 45, 118, 49]
        (sha256 initDataFile1)).init_data_digest = sha256 initDataFile1 ∧
     (ParsedInitData.mk [97, 112, 112, 45, 118, 49]
        (sha256 initDataFile2)).init_data_digest = sha256 initDataFile2 ∧
     (sha256 initDataFile1 ≠ sha256 initDataFile2 →
       (ParsedInitData.mk [97, 112, 112, 45, 118, 49]
          (sha256 initDataFile1)).init_data_digest ≠
       (ParsedInitData.mk [97, 112, 112, 45, 118, 49]
          (sha256 initDataFile2)).init_data_digest)) ∧
    sha256 initDataFile1 ≠ sha256 initDataFile2 ∧
    derive_ed25519_seed [1, 2, 3] (sha256 initDataFile1) [97, 112, 112] ≠
      derive_ed25519_seed [1, 2, 3] (sha256 initDataFile2) [97, 112, 112] :=
  ⟨initdata_digest_is_raw_sha256 constTomlDecode constTomlDecode
      initDataFile1 initDataFile2 _ _ rfl rfl,
   by decide, by decide⟩

/-- C10: a configuration file whose raw bytes are not valid UTF-8 is
rejected by `parse` with the UTF-8 error before anything downstream runs
— the result is the same for every TOML-decoder behaviour, the pipeline
stops at the parse stage, and no seed is ever produced. -/
theorem initdata_rejects_non_utf8
    (fromToml : List Nat → Except String InitData) (raw : List Nat)
    (ikmResult : Except String (List Nat))
    (h : utf8Valid raw = false) :
    parse fromToml (Except.ok raw) =
      Except.error "init_data.toml is not valid UTF-8" ∧
    (mainRun fromToml (Except.ok raw) ikmResult).2 =
      [MainEvent.parseInitData] ∧
    ∀ seed, (mainRun fromToml (Except.ok raw) ikmResult).1 ≠
      Except.ok seed := by
  have hp : parse fromToml (Except.ok raw) =
      Except.error "init_data.toml is not valid UTF-8" := by
    simp [parse, h]
  refine ⟨hp, ?_, ?_⟩
  · simp only [mainRun, hp]
  · intro seed
    simp only [mainRun, hp]
    simp

/-- Witness for C10: the lone byte `0xFF` is not valid UTF-8. -/
theorem initdata_rejects_non_utf8_witness :
    parse constTomlDecode (Except.ok [255]) =
      Except.error "init_data.toml is not valid UTF-8" ∧
    (mainRun constTomlDecode (Except.ok [255]) (Except.ok [])).2 =
      [MainEvent.parseInitData] ∧
    ∀ seed, (mainRun constTomlDecode (Except.ok [255]) (Except.ok [])).1 ≠
      Except.ok seed :=
  initdata_rejects_non_utf8 constTomlDecode [255] (Except.ok []) (by decide)

/-! ## Claim theorems: AK provisioning (C5, C6) -/

/-- Every successful `provision_ak` run leaves the fixed handle occupied:
either it was already occupied, or the run persisted the AK there. -/
theorem provision_ak_ok_occupied (fail : TpmOp → Bool) (s : TpmState)
    (hok : (provision_ak fail s).1 = Except.ok ()) :
    (lookupHandle (provision_ak fail s).2.1
      AttestationAgentInit.AK_HANDLE).isSome = true := by
  simp only [provision_ak] at hok ⊢
  split_ifs at hok ⊢ with h1 h2 h3 h4 h5 h6
  · exact h1
  · simp [lookupHandle, List.find?_cons]

/-- C5: provisioning is idempotent — whenever an object already resolves
at the fixed persistent handle, `provision_ak` succeeds at once, leaves
the TPM state unchanged, and attempts no TPM operation other than the
resolve (no create, load, evict or flush); and every successful run
leaves the handle occupied, so a second invocation after a successful
first run mutates nothing and succeeds again. -/
theorem provision_ak_idempotent (fail fail₀ : TpmOp → Bool) (s s₀ : TpmState)
    (h : (lookupHandle s AttestationAgentInit.AK_HANDLE).isSome = true) :
    provision_ak fail s = (Except.ok (), s, [TpmOp.trFromTpmPublic]) ∧
    ((provision_ak fail₀ s₀).1 = Except.ok () →
      (lookupHandle (provision_ak fail₀ s₀).2.1
          AttestationAgentInit.AK_HANDLE).isSome = true) := by
  refine ⟨?_, provision_ak_ok_occupied fail₀ s₀⟩
  simp [provision_ak, h]

/-- Witness for C5: an occupied handle is a no-op even when every TPM
operation would fail, and a clean first run re-establishes occupancy. -/
theorem provision_ak_idempotent_witness :
    provision_ak (fun _ => true) (TpmState.mk [(0x81010002, 7)] [] 8) =
      (Except.ok (), TpmState.mk [(0x81010002, 7)] [] 8,
       [TpmOp.trFromTpmPublic]) ∧
    ((provision_ak (fun _ => false) (TpmState.mk [] [] 0)).1 =
        Except.ok () →
      (lookupHandle (provision_ak (fun _ => false)
          (TpmState.mk [] [] 0)).2.1
          AttestationAgentInit.AK_HANDLE).isSome = true) :=
  provision_ak_idempotent (fun _ => true) (fun _ => false)
    (TpmState.mk [(0x81010002, 7)] [] 8) (TpmState.mk [] [] 0) (by decide)

/-- C6: starting from a TPM state with the target handle empty, any TPM
operation failure during steps 3a–3e (create-primary, create, load,
evict-control, flush) aborts the whole attempt with the provisioning
error — and exactly those failures produce an error; a run that fails
before the evict-control step (at create-primary, create or load) leaves
no object at the target handle; and the handle can only become occupied
through a successfully executed evict-control. -/
theorem provision_ak_failure_aborts (fail : TpmOp → Bool) (s : TpmState)
    (h : lookupHandle s AttestationAgentInit.AK_HANDLE = none) :
    ((provision_ak fail s).1 = Except.error "TPM AK provisioning failed" ↔
      (fail TpmOp.createPrimary = true ∨ fail TpmOp.create = true ∨
       fail TpmOp.load = true ∨ fail TpmOp.evictControl = true ∨
       fail TpmOp.flushContext = true)) ∧
    (fail TpmOp.createPrimary = true ∨ fail TpmOp.create = true ∨
        fail TpmOp.load = true →
      lookupHandle (provision_ak fail s).2.1
        AttestationAgentInit.AK_HANDLE = none) ∧
    (lookupHandle (provision_ak fail s).2.1
        AttestationAgentInit.AK_HANDLE ≠ none →
      fail TpmOp.evictControl = false ∧
      TpmOp.evictControl ∈ (provision_ak fail s).2.2) := by
  have h0 : (lookupHandle s AttestationAgentInit.AK_HANDLE).isSome = false := by
    rw [h]; rfl
  simp only [provision_ak, h0, Bool.false_eq_true, if_false]
  split_ifs with h2 h3 h4 h5 h6
  · exact ⟨by simp [h2], fun _ => h, fun hc => absurd h hc⟩
  · exact ⟨by simp [h3], fun _ => h, fun hc => absurd h hc⟩
  · exact ⟨by simp [h4], fun _ => h, fun hc => absurd h hc⟩
  · exact ⟨by simp [h5], fun _ => h, fun hc => absurd h hc⟩
  · exact ⟨by simp [h6], fun hd => absurd hd (by simp [h2, h3, h4]),
      fun _ => ⟨by simpa using h5, by simp⟩⟩
  · exact ⟨by simp [h2, h3, h4, h5, h6],
      fun hd => absurd hd (by simp [h2, h3, h4]),
      fun _ => ⟨by simpa using h5, by simp⟩⟩

/-- Witness for C6: a load failure on an empty TPM aborts with the
provisioning error and leaves the target handle empty. -/
theorem provision_ak_failure_aborts_witness :
    (provision_ak (fun op => decide (op = TpmOp.load))
        (TpmState.mk [] [] 0)).1 =
      Except.error "TPM AK provisioning failed" ∧
    lookupHandle (provision_ak (fun op => decide (op = TpmOp.load))
        (TpmState.mk [] [] 0)).2.1
      AttestationAgentInit.AK_HANDLE = none :=
  have hthm := provision_ak_failure_aborts
    (fun op => decide (op = TpmOp.load)) (TpmState.mk [] [] 0) rfl
  ⟨hthm.1.mpr (Or.inr (Or.inr (Or.inl (by decide)))),
   hthm.2.1 (Or.inr (Or.inr (by decide)))⟩

/-! ## Claim theorems: TPM seed provider (C7) -/

/-- C7: when the object at the fixed AK handle decodes to a non-RSA key,
the TPM seed provider's `ikm` fails with the unsupported-key-type error
and returns no keying material; when it decodes to an RSA key, `ikm`
returns exactly the SubjectPublicKeyInfo DER re-encoding of the key's
modulus and exponent. -/
theorem tpm_ikm_rsa_spki (readDecoded : Nat → Except String DecodedKey) :
    (∀ pt, readDecoded TpmProvider.AK_HANDLE =
        Except.ok (DecodedKey.EcPoint pt) →
      tpmSeedProviderIkm readDecoded = Except.error "AK is not an RSA key") ∧
    (∀ m e, readDecoded TpmProvider.AK_HANDLE =
        Except.ok (DecodedKey.RsaPublicKey m e) →
      tpmSeedProviderIkm readDecoded =
        Except.ok (subjectPublicKeyInfoRsa m e)) := by
  refine ⟨fun pt hr => ?_, fun m e hr => ?_⟩ <;>
    simp [tpmSeedProviderIkm, ak_public_key_der, hr]

/-- Witness for C7: a concrete EC key is rejected, a concrete RSA key is
re-encoded. -/
theorem tpm_ikm_rsa_spki_witness :
    tpmSeedProviderIkm (fun _ => Except.ok (DecodedKey.EcPoint [4])) =
      Except.error "AK is not an RSA key" ∧
    tpmSeedProviderIkm
        (fun _ => Except.ok (DecodedKey.RsaPublicKey [0, 171] [1, 0, 1])) =
      Except.ok (subjectPublicKeyInfoRsa [0, 171] [1, 0, 1]) :=
  ⟨(tpm_ikm_rsa_spki (fun _ => Except.ok (DecodedKey.EcPoint [4]))).1
      [4] rfl,
   (tpm_ikm_rsa_spki
      (fun _ => Except.ok (DecodedKey.RsaPublicKey [0, 171] [1, 0, 1]))).2
      [0, 171] [1, 0, 1] rfl⟩

/-! ## Claim theorems: the FIFO serving loop (C8) -/

/-- The serve loop keeps looping exactly while every iteration delivers
successfully. -/
theorem serve_looping_iff (script : List FifoIterOutcome) :
    (serve script).1 = ServeResult.looping ↔
      ∀ o ∈ script, o = FifoIterOutcome.deliverOk := by
  induction script with
  | nil => simp [serve]
  | cons a rest ih => cases a <;> simp [serve, ih]

/-- The serve loop delivers once per reader until the first failure. -/
theorem serve_count (script : List FifoIterOutcome) :
    (serve script).2 =
      (script.takeWhile (fun o => o == FifoIterOutcome.deliverOk)).length := by
  induction script with
  | nil => simp [serve]
  | cons a rest ih => cases a <;> simp [serve, List.takeWhile_cons, ih]

/-- After any run of successful deliveries, the first failing iteration
ends the loop with that step's error. -/
theorem serve_first_fail (pre : List FifoIterOutcome) (o : FifoIterOutcome)
    (post : List FifoIterOutcome)
    (hpre : ∀ x ∈ pre, x = FifoIterOutcome.deliverOk)
    (ho : o ≠ FifoIterOutcome.deliverOk) :
    (serve (pre ++ o :: post)).1 =
      ServeResult.failed (fifoErrorMessage o) := by
  induction pre with
  | nil =>
    cases o
    · rfl
    · rfl
    · rfl
    · exact absurd rfl ho
  | cons x xs ih =>
    have hx : x = FifoIterOutcome.deliverOk := hpre x (by simp)
    subst hx
    simp only [List.cons_append, serve]
    exact ih (fun y hy => hpre y (by simp [hy]))

/-- C8 counterexample: with one connected reader whose write fails and a
second reader attempt behind it, `serve` terminates with the write error
— the loop does not continue and the pipe is not re-offered, so the
write failure is fatal rather than bounded to one lost delivery. -/
theorem serve_write_failure_fatal :
    serve [FifoIterOutcome.writeFail, FifoIterOutcome.deliverOk] =
      (ServeResult.failed "failed to write CDH resources to FIFO", 0) ∧
    (serve [FifoIterOutcome.writeFail, FifoIterOutcome.deliverOk]).1 ≠
      ServeResult.looping := by
  exact ⟨rfl, by decide⟩

/-- C8 amended: every per-iteration failure in the serving loop — pipe
creation, opening the pipe, or writing to the connected reader — is
fatal: it ends the loop with an error naming the failing step and the
failed reader is not retried; the loop re-offers the pipe only after
successful deliveries, so it continues exactly while every delivery
succeeds, serving one reader per iteration. -/
theorem serve_failure_semantics (script : List FifoIterOutcome) :
    ((serve script).1 = ServeResult.looping ↔
      ∀ o ∈ script, o = FifoIterOutcome.deliverOk) ∧
    (serve script).2 =
      (script.takeWhile (fun o => o == FifoIterOutcome.deliverOk)).length ∧
    ∀ pre o post, script = pre ++ o :: post →
      (∀ x ∈ pre, x = FifoIterOutcome.deliverOk) →
      o ≠ FifoIterOutcome.deliverOk →
      (serve script).1 = ServeResult.failed (fifoErrorMessage o) :=
  ⟨serve_looping_iff script, serve_count script,
   fun pre o post hs hpre ho => by
     rw [hs]; exact serve_first_fail pre o post hpre ho⟩

/-- Witness for C8's amended statement: one successful delivery followed
by an open failure ends the loop with the open error. -/
theorem serve_failure_semantics_witness :
    (serve [FifoIterOutcome.deliverOk, FifoIterOutcome.openFail]).1 =
      ServeResult.failed (fifoErrorMessage FifoIterOutcome.openFail) :=
  (serve_failure_semantics
      [FifoIterOutcome.deliverOk, FifoIterOutcome.openFail]).2.2
    [FifoIterOutcome.deliverOk] FifoIterOutcome.openFail [] rfl
    (by decide) (by decide)

/-! ## Claim theorems: the AK handle constant (C9) -/

/-- C9 counterexample: the AK handle is not kept as a single shared named
constant — the source has two separate per-crate declaration sites, each
with its own copy of the `0x81010002` literal. -/
theorem ak_handle_not_single_constant :
    akHandleDeclSites.length = 2 ∧ akHandleDeclSites.length ≠ 1 ∧
    akHandleDeclSites.map Prod.snd = [0x81010002, 0x81010002] := by decide

/-- C9 amended: the fixed 32-bit persistent handle value identifying the
AK is the same in the provisioning path and in the consumer path — the
two per-crate `AK_HANDLE` constants are equal and both `0x81010002`, and
every declaration site carries that value — but it is maintained as
duplicated per-crate literals rather than as one shared named constant. -/
theorem ak_handle_values_agree :
    AttestationAgentInit.AK_HANDLE = TpmProvider.AK_HANDLE ∧
    AttestationAgentInit.AK_HANDLE = 0x81010002 ∧
    ∀ site ∈ akHandleDeclSites, site.2 = AttestationAgentInit.AK_HANDLE := by
  refine ⟨rfl, rfl, ?_⟩
  decide

/-- Witness for C9's amended statement at the first declaration site. -/
theorem ak_handle_values_agree_witness :
    ("attestation-agent-init/src/main.rs", (0x81010002 : Nat)) ∈
      akHandleDeclSites ∧
    ("attestation-agent-init/src/main.rs", (0x81010002 : Nat)).2 =
      AttestationAgentInit.AK_HANDLE :=
  ⟨by simp [akHandleDeclSites],
   ak_handle_values_agree.2.2
     ("attestation-agent-init/src/main.rs", (0x81010002 : Nat))
     (by simp [akHandleDeclSites])⟩
